import Mathlib

/-!
Verification of the trajtracker DirectionMonitor
(src/src/dobbyt/movement/_DirectionMonitor.py) together with the argument
validation helpers it uses (src/src/trajtracker/_utils.py).

Coordinates, times and angles are modelled as rationals.  The helper
u.get_angle (from dobbyt.misc.utils, which is not among the sources) is
modelled as a function parameter: every definition and theorem is generic in
a function getAngle giving the raw movement angle between the reference
point and the newest sample, already converted to the configured angle
units.  Python float modulo is modelled by pyMod below.

Two levels are embedded.  The first level (DMState, update_xyt, runSession)
is the per-update algorithm of update_xyt lines 85-91 acting on a monitor
state whose attributes all exist; this is the semantics of the window scan
(_remove_far_enough_recent_coords), the angle computation (_calc_curr_angle)
and the curve state machine (_check_if_new_curve).  The second level (PyDM
and its methods) models the object at Python attribute granularity: an
attribute that was never assigned is absent, reading an absent attribute
raises AttributeError, and a raised exception carries the state the object
had at the moment of the raise.  This second level captures that __init__
never calls reset() and that reset() assigns _last_angle but never
_curr_angle, so update_xyt fails with AttributeError.
-/

/-- A timestamped 2-D position sample, the (x_coord, y_coord, time) triple
appended to _recent_near_coords by update_xyt. -/
structure Sample where
  x : ℚ
  y : ℚ
  t : ℚ
deriving DecidableEq, Repr

/-- Python float modulo: x % m = x - m * floor (x / m).  For m > 0 the
result lies in [0, m). -/
def pyMod (x m : ℚ) : ℚ := x - m * (⌊x / m⌋ : ℚ)

/-- Squared Euclidean distance from a stored sample to the current
coordinates, as computed on line 161 of _DirectionMonitor.py. -/
def sqDistTo (c : Sample) (x y : ℚ) : ℚ := (c.x - x) ^ 2 + (c.y - y) ^ 2

/-- The scan loop of _remove_far_enough_recent_coords: the argument list is
the slice of stored samples with indices len-1, len-2, ..., 1, in that scan
order, and the result is the (x, y) of the first one whose squared distance
to the current point is at least sqMin. -/
def findFarCoord (sqMin x y : ℚ) : List Sample → Option (ℚ × ℚ)
  | [] => none
  | c :: rest =>
    if sqDistTo c x y ≥ sqMin then some (c.x, c.y) else findFarCoord sqMin x y rest

/-- DirectionMonitor._remove_far_enough_recent_coords: recomputes the
reference point _pre_recent_coord from the pre-append window.  On an empty
window the method returns at once and the attribute keeps its old value;
otherwise the stored samples at indices len-1 down to 1 are scanned (index
0, the first sample of the session, is excluded because the loop is
range(len(coords)-1, 0, -1)), and the reference becomes the scanned sample
that is far enough, or None when none is. -/
def remove_far_enough_recent_coords (minDistance unitsPerMm x y : ℚ)
    (coords : List Sample) (old : Option (ℚ × ℚ)) : Option (ℚ × ℚ) :=
  if coords.isEmpty then old
  else findFarCoord ((minDistance * unitsPerMm) ^ 2) x y coords.tail.reverse

/-- Lines 108-113 of _calc_curr_angle: when zero_angle is nonzero, subtract
it from the angle and reduce modulo max_angle, folding results above
max_angle / 2 down by one full turn. -/
def normalizeAngle (zeroAngle maxAngle angle : ℚ) : ℚ :=
  if zeroAngle ≠ 0 then
    let a := pyMod (angle - zeroAngle) maxAngle
    if a > maxAngle / 2 then a - maxAngle else a
  else angle

/-- DirectionMonitor._calc_curr_angle: None when there is no reference
point, otherwise the raw angle (getAngle, already in the configured units)
from the reference point to the newest sample, normalized by the zero-angle
offset. -/
def calc_curr_angle (getAngle : ℚ × ℚ → Sample → ℚ) (zeroAngle maxAngle : ℚ)
    (preRecent : Option (ℚ × ℚ)) (newest : Sample) : Option ℚ :=
  match preRecent with
  | none => none
  | some p => some (normalizeAngle zeroAngle maxAngle (getAngle p newest))

/-- The curve-tracking attributes of the monitor: _curr_curve_direction,
_curr_curve_start_angle, _curr_curve_start_index and _n_curves. -/
structure CurveState where
  curr_curve_direction : Option ℤ
  curr_curve_start_angle : Option ℚ
  curr_curve_start_index : Option ℕ
  n_curves : ℕ
deriving DecidableEq, Repr

/-- DirectionMonitor._check_if_new_curve: when both the newly computed angle
and the previous angle exist, take the angular change modulo max_angle; a
zero change makes no decision; otherwise the instantaneous direction is 1
when the change is at most max_angle / 2 and -1 otherwise, and whenever it
differs from the recorded direction (including from None) the four curve
attributes are rewritten, with the start index len(window) - 1 and the curve
count incremented. -/
def check_if_new_curve (maxAngle : ℚ) (currAngle prevAngle : Option ℚ)
    (winLen : ℕ) (cs : CurveState) : CurveState :=
  match currAngle, prevAngle with
  | some ca, some pa =>
    let d := pyMod (ca - pa) maxAngle
    if d = 0 then cs
    else
      let dir : ℤ := if d ≤ maxAngle / 2 then 1 else -1
      if some dir ≠ cs.curr_curve_direction then
        { curr_curve_direction := some dir, curr_curve_start_angle := some ca,
          curr_curve_start_index := some (winLen - 1), n_curves := cs.n_curves + 1 }
      else cs
  | _, _ => cs

/-- Monitor configuration: units_per_mm and min_distance interpret the
minimal separation, zero_angle is the configured zero offset, and max_angle
is 360 for Units.Degrees (2 * pi for Units.Radians). -/
structure DMConfig where
  units_per_mm : ℚ
  min_distance : ℚ
  zero_angle : ℚ
  max_angle : ℚ
deriving DecidableEq, Repr

/-- The runtime state of a monitor whose attributes all exist: the window
_recent_near_coords, the reference point _pre_recent_coord, the current
angle _curr_angle and the curve state. -/
structure DMState where
  recent_near_coords : List Sample
  pre_recent_coord : Option (ℚ × ℚ)
  curr_angle : Option ℚ
  curve : CurveState
deriving DecidableEq, Repr

/-- The state a session starts from: empty window, no reference point, no
angle and the cleared curve state.  This is the state reset() is meant to
establish; the faithful attribute-level reset is PyDM.reset below, which
assigns _last_angle instead of _curr_angle. -/
def initialState : DMState := ⟨[], none, none, ⟨none, none, none, 0⟩⟩

/-- The body of DirectionMonitor.update_xyt after its argument validation
(lines 85-91): recompute the reference point from the pre-append window,
append the new sample, recompute the current angle and run the curve state
machine against the previous angle. -/
def update_xyt (cfg : DMConfig) (g : ℚ × ℚ → Sample → ℚ) (s : DMState)
    (smp : Sample) : DMState :=
  let pre := remove_far_enough_recent_coords cfg.min_distance cfg.units_per_mm
    smp.x smp.y s.recent_near_coords s.pre_recent_coord
  let coords := s.recent_near_coords ++ [smp]
  let ca := calc_curr_angle g cfg.zero_angle cfg.max_angle pre smp
  ⟨coords, pre, ca, check_if_new_curve cfg.max_angle ca s.curr_angle coords.length s.curve⟩

/-- A whole session: fold update_xyt over a list of samples starting from
the initial state. -/
def runSession (cfg : DMConfig) (g : ℚ × ℚ → Sample → ℚ)
    (samples : List Sample) : DMState :=
  samples.foldl (update_xyt cfg g) initialState

/-- Python exception kinds raised by the monitor code: ValueError from the
validate_func_arg_type / validate_func_arg_not_negative helpers of
trajtracker._utils, AttributeError from reading an attribute that was never
assigned, and IndexError from an out-of-range list subscript. -/
inductive PyErr where
  | valueError (msg : String)
  | attributeError (attrName : String)
  | indexError
deriving DecidableEq, Repr

/-- An argument as passed from Python: a number or a non-numeric value such
as a string. -/
inductive PyVal where
  | num (q : ℚ)
  | str (s : String)
deriving DecidableEq, Repr

/-- The DirectionMonitor object at attribute granularity.  A field of
Option type is the attribute when it has been assigned and none when
reading it raises AttributeError; for attributes whose Python value can be
None the inner Option is that value.  units_per_mm, min_distance and the
angle units are always assigned by __init__; only Units.Degrees is
modelled (max_angle 360), since the Radians max_angle 2 * pi is not
rational. -/
structure PyDM where
  units_per_mm : ℚ
  min_distance : ℚ
  zero_angle : Option ℚ
  recent_near_coords : Option (List Sample)
  pre_recent_coord : Option (Option (ℚ × ℚ))
  last_angle : Option (Option ℚ)
  curr_angle : Option (Option ℚ)
  curr_curve_direction : Option (Option ℤ)
  curr_curve_start_angle : Option (Option ℚ)
  curr_curve_start_index : Option (Option ℕ)
  n_curves : Option ℕ
deriving DecidableEq, Repr

/-- DirectionMonitor.__init__ run with arguments that pass its validations
(units_per_mm a positive number, min_distance a non-negative number): it
assigns only _units_per_mm, _min_distance and _angle_units.  It never calls
reset(), so _zero_angle, _curr_angle, the window attributes and the curve
attributes are all left unassigned. -/
def DirectionMonitor_init (units_per_mm min_distance : ℚ) : PyDM :=
  { units_per_mm := units_per_mm, min_distance := min_distance,
    zero_angle := none, recent_near_coords := none, pre_recent_coord := none,
    last_angle := none, curr_angle := none, curr_curve_direction := none,
    curr_curve_start_angle := none, curr_curve_start_index := none,
    n_curves := none }

/-- DirectionMonitor.__init__ including its validations: ValueError when
units_per_mm is not a number or not positive, then the min_distance setter
raises ValueError when min_distance is not a number or negative. -/
def DirectionMonitor_init_checked (units_per_mm min_distance : PyVal) :
    Except PyErr PyDM :=
  match units_per_mm with
  | .str _ => .error (.valueError "units_per_mm is not a number")
  | .num u =>
    if u ≤ 0 then .error (.valueError "units_per_mm is not positive")
    else
      match min_distance with
      | .str _ => .error (.valueError "min_distance is not a number")
      | .num d =>
        if d < 0 then .error (.valueError "min_distance is negative")
        else .ok (DirectionMonitor_init u d)

/-- DirectionMonitor.reset: assigns _recent_near_coords, _pre_recent_coord,
_last_angle (not _curr_angle), the three curve attributes and _n_curves.
All other attributes, in particular _curr_angle and _zero_angle, are left
as they were. -/
def PyDM.reset (m : PyDM) : PyDM :=
  { m with
    recent_near_coords := some []
    pre_recent_coord := some none
    last_angle := some none
    curr_curve_direction := some none
    curr_curve_start_angle := some none
    curr_curve_start_index := some none
    n_curves := some 0 }

/-- The zero_angle property setter (with a numeric argument). -/
def PyDM.set_zero_angle (m : PyDM) (v : ℚ) : PyDM :=
  { m with zero_angle := some v }

/-- The curr_angle property: returns self._curr_angle, raising
AttributeError when that attribute was never assigned. -/
def PyDM.curr_angle_prop (m : PyDM) : Except PyErr (Option ℚ) :=
  match m.curr_angle with
  | none => .error (.attributeError "_curr_angle")
  | some a => .ok a

/-- The curr_curve_direction property. -/
def PyDM.curr_curve_direction_prop (m : PyDM) : Except PyErr (Option ℤ) :=
  match m.curr_curve_direction with
  | none => .error (.attributeError "_curr_curve_direction")
  | some d => .ok d

/-- The curr_curve_start_angle property. -/
def PyDM.curr_curve_start_angle_prop (m : PyDM) : Except PyErr (Option ℚ) :=
  match m.curr_curve_start_angle with
  | none => .error (.attributeError "_curr_curve_start_angle")
  | some a => .ok a

/-- The curr_curve_start_xyt property: None when the start index is None,
otherwise the window element at the stored index. -/
def PyDM.curr_curve_start_xyt_prop (m : PyDM) : Except PyErr (Option Sample) :=
  match m.curr_curve_start_index with
  | none => .error (.attributeError "_curr_curve_start_index")
  | some none => .ok none
  | some (some i) =>
    match m.recent_near_coords with
    | none => .error (.attributeError "_recent_near_coords")
    | some coords =>
      match coords[i]? with
      | none => .error .indexError
      | some c => .ok (some c)

/-- The n_curves property. -/
def PyDM.n_curves_prop (m : PyDM) : Except PyErr ℕ :=
  match m.n_curves with
  | none => .error (.attributeError "_n_curves")
  | some n => .ok n

/-- DirectionMonitor._remove_far_enough_recent_coords at attribute level:
reading _recent_near_coords raises AttributeError when it was never
assigned; an empty window returns without touching _pre_recent_coord;
otherwise _pre_recent_coord is assigned the scan result. -/
def PyDM.remove_far_enough (m : PyDM) (x y : ℚ) : Except (PyErr × PyDM) PyDM :=
  match m.recent_near_coords with
  | none => .error (.attributeError "_recent_near_coords", m)
  | some coords =>
    if coords.isEmpty then .ok m
    else
      let ref := findFarCoord ((m.min_distance * m.units_per_mm) ^ 2) x y coords.tail.reverse
      .ok { m with pre_recent_coord := some ref }

/-- DirectionMonitor._calc_curr_angle at attribute level.  The reads of
_pre_recent_coord, _recent_near_coords[-1] and _zero_angle can raise; when
the reference is None the method assigns _curr_angle = None. -/
def PyDM.calc_curr_angle_m (g : ℚ × ℚ → Sample → ℚ) (m : PyDM) :
    Except (PyErr × PyDM) PyDM :=
  match m.pre_recent_coord with
  | none => .error (.attributeError "_pre_recent_coord", m)
  | some none => .ok { m with curr_angle := some none }
  | some (some p) =>
    match m.recent_near_coords with
    | none => .error (.attributeError "_recent_near_coords", m)
    | some coords =>
      match coords.getLast? with
      | none => .error (.indexError, m)
      | some newest =>
        match m.zero_angle with
        | none => .error (.attributeError "_zero_angle", m)
        | some z =>
          .ok { m with curr_angle := some (some (normalizeAngle z 360 (g p newest))) }

/-- DirectionMonitor._check_if_new_curve at attribute level, mirroring the
statement order of lines 126-140: the curve attributes are assigned one by
one, so an AttributeError raised late leaves the earlier assignments in
place. -/
def PyDM.check_if_new_curve_m (m : PyDM) (prevAngle : Option ℚ) :
    Except (PyErr × PyDM) PyDM :=
  match m.curr_angle with
  | none => .error (.attributeError "_curr_angle", m)
  | some caOpt =>
    match caOpt, prevAngle with
    | some ca, some pa =>
      let d := pyMod (ca - pa) 360
      if d = 0 then .ok m
      else
        let dir : ℤ := if d ≤ 360 / 2 then 1 else -1
        match m.curr_curve_direction with
        | none => .error (.attributeError "_curr_curve_direction", m)
        | some cd =>
          if some dir ≠ cd then
            let m1 := { m with
                        curr_curve_direction := some (some dir)
                        curr_curve_start_angle := some (some ca) }
            match m1.recent_near_coords with
            | none => .error (.attributeError "_recent_near_coords", m1)
            | some coords =>
              let m2 := { m1 with curr_curve_start_index := some (some (coords.length - 1)) }
              match m2.n_curves with
              | none => .error (.attributeError "_n_curves", m2)
              | some n => .ok { m2 with n_curves := some (n + 1) }
          else .ok m
    | _, _ => .ok m

/-- DirectionMonitor.update_xyt at attribute level: first the argument
validations of trajtracker._utils (x_coord, y_coord and time must be
numbers, time must not be negative; each failure raises ValueError before
any state is touched), then the three internal steps.  An error value
carries the state the object had at the moment the exception was raised;
in particular the new sample has already been appended when the read of
self._curr_angle on line 89 raises AttributeError. -/
def PyDM.update_xyt (g : ℚ × ℚ → Sample → ℚ) (m : PyDM) (x y t : PyVal) :
    Except (PyErr × PyDM) PyDM :=
  match x with
  | .str _ => .error (.valueError "update_xyt called with a non-number x_coord", m)
  | .num xq =>
    match y with
    | .str _ => .error (.valueError "update_xyt called with a non-number y_coord", m)
    | .num yq =>
      match t with
      | .str _ => .error (.valueError "update_xyt called with a non-number time", m)
      | .num tq =>
        if tq < 0 then
          .error (.valueError "argument time of update_xyt has a negative value", m)
        else
          match m.remove_far_enough xq yq with
          | .error e => .error e
          | .ok m1 =>
            match m1.recent_near_coords with
            | none => .error (.attributeError "_recent_near_coords", m1)
            | some coords =>
              let m2 := { m1 with recent_near_coords := some (coords ++ [(⟨xq, yq, tq⟩ : Sample)]) }
              match m2.curr_angle with
              | none => .error (.attributeError "_curr_angle", m2)
              | some lastAngle =>
                match m2.calc_curr_angle_m g with
                | .error e => .error e
                | .ok m3 => m3.check_if_new_curve_m lastAngle

/-! Helper lemmas about pyMod, the window scan and session runs. -/

theorem pyMod_nonneg (x m : ℚ) (hm : 0 < m) : 0 ≤ pyMod x m := by
  have h := Int.floor_le (x / m)
  have h2 : m * (⌊x / m⌋ : ℚ) ≤ m * (x / m) := mul_le_mul_of_nonneg_left h (le_of_lt hm)
  have h3 : m * (x / m) = x := by field_simp
  unfold pyMod
  linarith

theorem pyMod_lt (x m : ℚ) (hm : 0 < m) : pyMod x m < m := by
  have h := Int.lt_floor_add_one (x / m)
  have h2 : m * (x / m) < m * ((⌊x / m⌋ : ℚ) + 1) := mul_lt_mul_of_pos_left h hm
  have h3 : m * (x / m) = x := by field_simp
  rw [mul_add, mul_one] at h2
  unfold pyMod
  linarith

theorem pyMod_of_nonneg_lt (x m : ℚ) (h1 : 0 ≤ x) (h2 : x < m) : pyMod x m = x := by
  have hm : 0 < m := lt_of_le_of_lt h1 h2
  have hfl : ⌊x / m⌋ = 0 := by
    rw [Int.floor_eq_zero_iff]
    constructor
    · exact div_nonneg h1 (le_of_lt hm)
    · exact (div_lt_one hm).mpr h2
  simp [pyMod, hfl]

theorem pyMod_of_neg (x m : ℚ) (h0 : -m ≤ x) (h1 : x < 0) (hm : 0 < m) :
    pyMod x m = x + m := by
  have hfl : ⌊x / m⌋ = -1 := by
    rw [Int.floor_eq_iff]
    constructor
    · push_cast
      rw [neg_le, ← neg_div]
      exact (div_le_one hm).mpr (by linarith)
    · push_cast
      have : x / m < 0 := div_neg_of_neg_of_pos h1 hm
      linarith
  rw [pyMod, hfl]
  push_cast
  ring

theorem pyMod_add_int_mul (x m : ℚ) : ∃ k : ℤ, pyMod x m = x + k * m := by
  exact ⟨-⌊x / m⌋, by rw [pyMod]; push_cast; ring⟩

theorem findFarCoord_ne_none_iff (sqMin x y : ℚ) :
    ∀ l : List Sample, findFarCoord sqMin x y l ≠ none ↔ ∃ c ∈ l, sqMin ≤ sqDistTo c x y := by
  intro l
  induction l with
  | nil => simp [findFarCoord]
  | cons c rest ih =>
    rw [findFarCoord]
    by_cases h : sqDistTo c x y ≥ sqMin
    · rw [if_pos h]
      constructor
      · intro _
        exact ⟨c, List.mem_cons_self c rest, h⟩
      · intro _
        exact Option.some_ne_none _
    · rw [if_neg h, ih]
      constructor
      · rintro ⟨d, hd, hle⟩
        exact ⟨d, List.mem_cons_of_mem c hd, hle⟩
      · rintro ⟨d, hd, hle⟩
        rcases List.mem_cons.mp hd with h1 | h1
        · rw [h1] at hle
          exact absurd hle h
        · exact ⟨d, h1, hle⟩

theorem calc_curr_angle_ne_none_iff (g : ℚ × ℚ → Sample → ℚ) (z m : ℚ)
    (pr : Option (ℚ × ℚ)) (newest : Sample) :
    calc_curr_angle g z m pr newest ≠ none ↔ pr ≠ none := by
  cases pr <;> simp [calc_curr_angle]

theorem update_xyt_recent (cfg : DMConfig) (g : ℚ × ℚ → Sample → ℚ)
    (s : DMState) (smp : Sample) :
    (update_xyt cfg g s smp).recent_near_coords = s.recent_near_coords ++ [smp] := rfl

theorem update_xyt_pre (cfg : DMConfig) (g : ℚ × ℚ → Sample → ℚ)
    (s : DMState) (smp : Sample) :
    (update_xyt cfg g s smp).pre_recent_coord =
      remove_far_enough_recent_coords cfg.min_distance cfg.units_per_mm
        smp.x smp.y s.recent_near_coords s.pre_recent_coord := rfl

theorem update_xyt_angle (cfg : DMConfig) (g : ℚ × ℚ → Sample → ℚ)
    (s : DMState) (smp : Sample) :
    (update_xyt cfg g s smp).curr_angle =
      calc_curr_angle g cfg.zero_angle cfg.max_angle
        (remove_far_enough_recent_coords cfg.min_distance cfg.units_per_mm
          smp.x smp.y s.recent_near_coords s.pre_recent_coord) smp := rfl

theorem update_xyt_curve (cfg : DMConfig) (g : ℚ × ℚ → Sample → ℚ)
    (s : DMState) (smp : Sample) :
    (update_xyt cfg g s smp).curve =
      check_if_new_curve cfg.max_angle (update_xyt cfg g s smp).curr_angle
        s.curr_angle (s.recent_near_coords ++ [smp]).length s.curve := rfl

theorem foldl_update_recent (cfg : DMConfig) (g : ℚ × ℚ → Sample → ℚ) :
    ∀ (samples : List Sample) (s : DMState),
      (samples.foldl (update_xyt cfg g) s).recent_near_coords =
        s.recent_near_coords ++ samples := by
  intro samples
  induction samples with
  | nil =>
    intro s
    simp
  | cons a rest ih =>
    intro s
    rw [List.foldl_cons, ih, update_xyt_recent]
    simp

theorem runSession_recent (cfg : DMConfig) (g : ℚ × ℚ → Sample → ℚ)
    (samples : List Sample) :
    (runSession cfg g samples).recent_near_coords = samples := by
  rw [runSession, foldl_update_recent]
  simp [initialState]

theorem runSession_concat (cfg : DMConfig) (g : ℚ × ℚ → Sample → ℚ)
    (pre : List Sample) (smp : Sample) :
    runSession cfg g (pre ++ [smp]) = update_xyt cfg g (runSession cfg g pre) smp := by
  simp [runSession, List.foldl_append]

theorem check_if_new_curve_cases (m : ℚ) (ca pa : Option ℚ) (w : ℕ) (cs : CurveState) :
    check_if_new_curve m ca pa w cs = cs ∨
      ∃ a b, ca = some a ∧ pa = some b ∧ pyMod (a - b) m ≠ 0 ∧
        some (if pyMod (a - b) m ≤ m / 2 then (1 : ℤ) else -1) ≠ cs.curr_curve_direction ∧
        check_if_new_curve m ca pa w cs =
          { curr_curve_direction := some (if pyMod (a - b) m ≤ m / 2 then (1 : ℤ) else -1),
            curr_curve_start_angle := some a, curr_curve_start_index := some (w - 1),
            n_curves := cs.n_curves + 1 } := by
  cases ca with
  | none => exact Or.inl rfl
  | some a =>
    cases pa with
    | none => exact Or.inl rfl
    | some b =>
      by_cases h0 : pyMod (a - b) m = 0
      · exact Or.inl (by simp [check_if_new_curve, h0])
      · by_cases hdir :
          some (if pyMod (a - b) m ≤ m / 2 then (1 : ℤ) else -1) ≠ cs.curr_curve_direction
        · refine Or.inr ⟨a, b, rfl, rfl, h0, hdir, ?_⟩
          simp only [check_if_new_curve, h0, if_false, hdir, if_true, if_neg h0, if_pos hdir]
        · exact Or.inl (by simp [check_if_new_curve, h0, hdir])

theorem check_n_curves_le (m : ℚ) (ca pa : Option ℚ) (w : ℕ) (cs : CurveState) :
    cs.n_curves ≤ (check_if_new_curve m ca pa w cs).n_curves := by
  rcases check_if_new_curve_cases m ca pa w cs with h | ⟨a, b, _, _, _, _, h⟩
  · rw [h]
  · rw [h]
    exact Nat.le_succ _

theorem check_n_curves_le_succ (m : ℚ) (ca pa : Option ℚ) (w : ℕ) (cs : CurveState) :
    (check_if_new_curve m ca pa w cs).n_curves ≤ cs.n_curves + 1 := by
  rcases check_if_new_curve_cases m ca pa w cs with h | ⟨a, b, _, _, _, _, h⟩
  · rw [h]
    exact Nat.le_succ _
  · rw [h]

theorem check_start_index_cases (m : ℚ) (ca pa : Option ℚ) (w : ℕ) (cs : CurveState) :
    (check_if_new_curve m ca pa w cs).curr_curve_start_index = cs.curr_curve_start_index ∨
    (check_if_new_curve m ca pa w cs).curr_curve_start_index = some (w - 1) := by
  rcases check_if_new_curve_cases m ca pa w cs with h | ⟨a, b, _, _, _, _, h⟩
  · exact Or.inl (by rw [h])
  · exact Or.inr (by rw [h])

theorem update_n_curves_le (cfg : DMConfig) (g : ℚ × ℚ → Sample → ℚ)
    (s : DMState) (smp : Sample) :
    s.curve.n_curves ≤ (update_xyt cfg g s smp).curve.n_curves := by
  rw [update_xyt_curve]
  exact check_n_curves_le _ _ _ _ _

theorem foldl_n_curves_le (cfg : DMConfig) (g : ℚ × ℚ → Sample → ℚ) :
    ∀ (ys : List Sample) (s : DMState),
      s.curve.n_curves ≤ ((ys.foldl (update_xyt cfg g) s)).curve.n_curves := by
  intro ys
  induction ys with
  | nil =>
    intro s
    exact le_refl _
  | cons a rest ih =>
    intro s
    rw [List.foldl_cons]
    exact le_trans (update_n_curves_le cfg g s a) (ih _)

theorem foldl_start_index_lt (cfg : DMConfig) (g : ℚ × ℚ → Sample → ℚ) :
    ∀ (samples : List Sample) (s : DMState),
      (∀ i, s.curve.curr_curve_start_index = some i → i < s.recent_near_coords.length) →
      ∀ i, (samples.foldl (update_xyt cfg g) s).curve.curr_curve_start_index = some i →
        i < (samples.foldl (update_xyt cfg g) s).recent_near_coords.length := by
  intro samples
  induction samples with
  | nil =>
    intro s h
    simpa using h
  | cons a rest ih =>
    intro s h
    rw [List.foldl_cons]
    apply ih
    intro i hi
    rw [update_xyt_recent, List.length_append]
    rw [update_xyt_curve] at hi
    rcases check_start_index_cases cfg.max_angle (update_xyt cfg g s a).curr_angle
        s.curr_angle (s.recent_near_coords ++ [a]).length s.curve with hc | hc
    · rw [hc] at hi
      have := h i hi
      simp only [List.length_singleton]
      omega
    · rw [hc] at hi
      injection hi with hi
      rw [List.length_append] at hi
      simp only [List.length_singleton] at hi ⊢
      omega

/-! Claim theorems. -/

/-- C5: the turning-direction decision follows the smaller-arc convention
with an inclusive boundary: with delta the angular change modulo 360, the
direction recorded by _check_if_new_curve (here read off from a state whose
recorded direction is still None, so the computed instantaneous direction is
stored) is +1 when 0 < delta <= 180 and -1 when delta > 180; in particular
delta exactly 180 gives +1 and delta 181 gives -1. -/
theorem smaller_arc_convention (ca pa : ℚ) (w : ℕ) (cs : CurveState)
    (hcs : cs.curr_curve_direction = none) :
    (0 < pyMod (ca - pa) 360 → pyMod (ca - pa) 360 ≤ 180 →
      (check_if_new_curve 360 (some ca) (some pa) w cs).curr_curve_direction = some 1) ∧
    (180 < pyMod (ca - pa) 360 →
      (check_if_new_curve 360 (some ca) (some pa) w cs).curr_curve_direction = some (-1)) := by
  have h180 : (360 : ℚ) / 2 = 180 := by norm_num
  constructor
  · intro h1 h2
    have h0 : pyMod (ca - pa) 360 ≠ 0 := ne_of_gt h1
    have hle : pyMod (ca - pa) 360 ≤ 360 / 2 := by rw [h180]; exact h2
    simp [check_if_new_curve, h0, hle, hcs]
  · intro h1
    have h0 : pyMod (ca - pa) 360 ≠ 0 := ne_of_gt (lt_trans (by norm_num) h1)
    have hgt : ¬ pyMod (ca - pa) 360 ≤ 360 / 2 := by rw [h180]; exact not_le.mpr h1
    simp [check_if_new_curve, h0, hgt, hcs]

/-- C5 witness: at delta 180 the direction is +1 and at delta 181 it is -1. -/
theorem smaller_arc_convention_witness :
    (check_if_new_curve 360 (some 180) (some 0) 2
      ⟨none, none, none, 0⟩).curr_curve_direction = some 1 ∧
    (check_if_new_curve 360 (some 181) (some 0) 2
      ⟨none, none, none, 0⟩).curr_curve_direction = some (-1) := by
  have hm180 : pyMod ((180 : ℚ) - 0) 360 = 180 := by
    rw [show (180 : ℚ) - 0 = 180 from by norm_num]
    exact pyMod_of_nonneg_lt 180 360 (by norm_num) (by norm_num)
  have hm181 : pyMod ((181 : ℚ) - 0) 360 = 181 := by
    rw [show (181 : ℚ) - 0 = 181 from by norm_num]
    exact pyMod_of_nonneg_lt 181 360 (by norm_num) (by norm_num)
  constructor
  · exact (smaller_arc_convention 180 0 2 ⟨none, none, none, 0⟩ rfl).1
      (by rw [hm180]; norm_num) (by rw [hm180])
  · exact (smaller_arc_convention 181 0 2 ⟨none, none, none, 0⟩ rfl).2
      (by rw [hm181]; norm_num)

/-- C6: when zero_angle is nonzero the reported angle is the raw angle minus
zero_angle, reduced modulo max_angle into (-max_angle/2, max_angle/2]; with
zero_angle 90 degrees a raw angle of 90 is reported as 0 and a raw angle of
0 is reported as -90. -/
theorem zero_angle_offset_correct :
    (∀ z m a : ℚ, z ≠ 0 → 0 < m →
      (-(m / 2) < normalizeAngle z m a ∧ normalizeAngle z m a ≤ m / 2) ∧
      ∃ k : ℤ, normalizeAngle z m a = a - z + k * m) ∧
    normalizeAngle 90 360 90 = 0 ∧ normalizeAngle 90 360 0 = -90 := by
  refine ⟨?_, ?_, ?_⟩
  · intro z m a hz hm
    have hnn := pyMod_nonneg (a - z) m hm
    have hlt := pyMod_lt (a - z) m hm
    obtain ⟨k, hk⟩ := pyMod_add_int_mul (a - z) m
    simp only [normalizeAngle, if_pos hz]
    by_cases hhalf : pyMod (a - z) m > m / 2
    · rw [if_pos hhalf]
      refine ⟨⟨by linarith, by linarith⟩, ⟨k - 1, ?_⟩⟩
      push_cast
      linarith
    · rw [if_neg hhalf]
      push_neg at hhalf
      exact ⟨⟨by linarith, hhalf⟩, ⟨k, by linarith⟩⟩
  · have h : pyMod (0 : ℚ) 360 = 0 :=
      pyMod_of_nonneg_lt 0 360 (by norm_num) (by norm_num)
    norm_num [normalizeAngle, h]
  · have h : pyMod (-90 : ℚ) 360 = 270 := by
      rw [pyMod_of_neg (-90) 360 (by norm_num) (by norm_num) (by norm_num)]
      norm_num
    norm_num [normalizeAngle, h]

/-- C6 witness: the general reduction applied at zero_angle 90, max_angle
360 and raw angle 45. -/
theorem zero_angle_offset_correct_witness :
    (-((360 : ℚ) / 2) < normalizeAngle 90 360 45 ∧ normalizeAngle 90 360 45 ≤ 360 / 2) ∧
    ∃ k : ℤ, normalizeAngle 90 360 45 = 45 - 90 + k * 360 :=
  zero_angle_offset_correct.1 90 360 45 (by norm_num) (by norm_num)

/-- C7: when the previous and current angles are both defined and the
angular change modulo max_angle is zero, _check_if_new_curve leaves the
whole curve state (n_curves, curr_curve_direction, curr_curve_start_angle,
curr_curve_start_index) unchanged. -/
theorem zero_delta_no_curve_change (m ca pa : ℚ) (w : ℕ) (cs : CurveState)
    (h : pyMod (ca - pa) m = 0) :
    check_if_new_curve m (some ca) (some pa) w cs = cs := by
  simp [check_if_new_curve, h]

/-- C7 witness: two equal consecutive angles leave a nontrivial curve state
untouched. -/
theorem zero_delta_no_curve_change_witness :
    check_if_new_curve 360 (some 5) (some 5) 3 ⟨some 1, some 7, some 2, 4⟩ =
      ⟨some 1, some 7, some 2, 4⟩ :=
  zero_delta_no_curve_change 360 5 5 3 ⟨some 1, some 7, some 2, 4⟩
    (by rw [show (5 : ℚ) - 5 = 0 from by norm_num]
        exact pyMod_of_nonneg_lt 0 360 (by norm_num) (by norm_num))

/-- C2 counterexample: on the very first nonzero angular change, while the
recorded direction is still None, the code sets the direction and also
increments n_curves from 0 to 1 — the initialization does count as a curve,
contrary to the claim. -/
theorem first_nonzero_change_counts_as_curve :
    (check_if_new_curve 360 (some 10) (some 0) 1
      ⟨none, none, none, 0⟩).curr_curve_direction = some 1 ∧
    (check_if_new_curve 360 (some 10) (some 0) 1 ⟨none, none, none, 0⟩).n_curves = 1 := by
  have hd : pyMod (10 : ℚ) 360 = 10 :=
    pyMod_of_nonneg_lt 10 360 (by norm_num) (by norm_num)
  constructor <;> norm_num [check_if_new_curve, hd] <;> decide

/-- C2 (amended): on the first update with a well-defined nonzero delta
while curr_curve_direction is still undefined, the direction is initialized
to the instantaneous turning direction and n_curves is incremented by one
(the code counts the initialization as a curve). -/
theorem first_nonzero_change_initializes_direction (m ca pa : ℚ) (w : ℕ)
    (cs : CurveState) (hcs : cs.curr_curve_direction = none)
    (hd : pyMod (ca - pa) m ≠ 0) :
    (check_if_new_curve m (some ca) (some pa) w cs).curr_curve_direction =
      some (if pyMod (ca - pa) m ≤ m / 2 then 1 else -1) ∧
    (check_if_new_curve m (some ca) (some pa) w cs).n_curves = cs.n_curves + 1 := by
  constructor <;> simp [check_if_new_curve, hd, hcs]

/-- C2 witness: the amended statement applied at delta 10 over a fresh curve
state. -/
theorem first_nonzero_change_initializes_direction_witness :
    (check_if_new_curve 360 (some 10) (some 0) 1
      ⟨none, none, none, 0⟩).curr_curve_direction =
      some (if pyMod ((10 : ℚ) - 0) 360 ≤ 360 / 2 then 1 else -1) ∧
    (check_if_new_curve 360 (some 10) (some 0) 1 ⟨none, none, none, 0⟩).n_curves = 0 + 1 :=
  first_nonzero_change_initializes_direction 360 10 0 1 ⟨none, none, none, 0⟩ rfl
    (by rw [show (10 : ℚ) - 0 = 10 from by norm_num]
        rw [pyMod_of_nonneg_lt 10 360 (by norm_num) (by norm_num)]
        norm_num)

/-- C8: n_curves never decreases, each _check_if_new_curve step raises it by
at most one, it rises by exactly one precisely when both angles exist, the
delta is nonzero and the instantaneous direction differs from the recorded
curr_curve_direction, and over a whole session n_curves is non-decreasing
under extending the sample sequence. -/
theorem n_curves_monotone_increment :
    (∀ (m : ℚ) (ca pa : Option ℚ) (w : ℕ) (cs : CurveState),
      cs.n_curves ≤ (check_if_new_curve m ca pa w cs).n_curves ∧
      (check_if_new_curve m ca pa w cs).n_curves ≤ cs.n_curves + 1 ∧
      ((check_if_new_curve m ca pa w cs).n_curves = cs.n_curves + 1 ↔
        ∃ a b, ca = some a ∧ pa = some b ∧ pyMod (a - b) m ≠ 0 ∧
          some (if pyMod (a - b) m ≤ m / 2 then (1 : ℤ) else -1) ≠ cs.curr_curve_direction)) ∧
    (∀ (cfg : DMConfig) (g : ℚ × ℚ → Sample → ℚ) (xs ys : List Sample),
      (runSession cfg g xs).curve.n_curves ≤ (runSession cfg g (xs ++ ys)).curve.n_curves) := by
  constructor
  · intro m ca pa w cs
    refine ⟨check_n_curves_le m ca pa w cs, check_n_curves_le_succ m ca pa w cs, ?_⟩
    constructor
    · intro h
      rcases check_if_new_curve_cases m ca pa w cs with hc | ⟨a, b, hca, hpa, h0, hne, hc⟩
      · rw [hc] at h
        omega
      · exact ⟨a, b, hca, hpa, h0, hne⟩
    · rintro ⟨a, b, hca, hpa, h0, hne⟩
      rw [hca, hpa]
      simp only [check_if_new_curve, h0, if_neg h0, if_pos hne]
      simp
  · intro cfg g xs ys
    rw [runSession, runSession, List.foldl_append]
    exact foldl_n_curves_le cfg g ys (xs.foldl (update_xyt cfg g) initialState)

/-- C1 counterexample: with min_distance 1 and units_per_mm 1, after the two
samples (0,0,0) and (5,0,1) — the second being 5 units away from the first,
well beyond min_distance times units_per_mm — curr_angle is still None: the
scan in _remove_far_enough_recent_coords never considers the first stored
sample (index 0), so two samples never suffice. -/
theorem two_far_samples_leave_angle_undefined :
    (runSession ⟨1, 1, 0, 360⟩ (fun _ _ => 0)
      [⟨0, 0, 0⟩, ⟨5, 0, 1⟩]).curr_angle = none ∧
    ((1 : ℚ) * 1) ^ 2 ≤ sqDistTo ⟨0, 0, 0⟩ 5 0 := by
  constructor
  · norm_num [runSession, update_xyt, remove_far_enough_recent_coords, findFarCoord,
      calc_curr_angle, check_if_new_curve, initialState, sqDistTo]
  · norm_num [sqDistTo]

/-- C1 (amended): in a session run from the initial state, after processing
the samples pre ++ [smp] the current angle is defined exactly when some
earlier sample other than the first one of the session (that is, a member of
pre.tail — the scan excludes index 0) is at squared distance at least
(min_distance * units_per_mm) squared from smp; while no such sample exists
the angle stays undefined, and in particular two samples are never enough. -/
theorem curr_angle_defined_iff (cfg : DMConfig) (g : ℚ × ℚ → Sample → ℚ)
    (pre : List Sample) (smp : Sample) :
    (runSession cfg g (pre ++ [smp])).curr_angle ≠ none ↔
      ∃ c ∈ pre.tail,
        (cfg.min_distance * cfg.units_per_mm) ^ 2 ≤ sqDistTo c smp.x smp.y := by
  rw [runSession_concat, update_xyt_angle, calc_curr_angle_ne_none_iff, runSession_recent]
  cases pre with
  | nil => simp [remove_far_enough_recent_coords, runSession, initialState]
  | cons p ps =>
    rw [remove_far_enough_recent_coords]
    rw [if_neg (by simp)]
    rw [List.tail_cons, findFarCoord_ne_none_iff]
    constructor
    · rintro ⟨c, hc, hle⟩
      exact ⟨c, List.mem_reverse.mp hc, hle⟩
    · rintro ⟨c, hc, hle⟩
      exact ⟨c, List.mem_reverse.mpr hc, hle⟩

/-- C10: each update appends exactly one sample to the window; a session
window is exactly the processed sample list; previously stored samples keep
their positions after an update; and any index recorded as curve start is a
valid index into the window, so curr_curve_start_xyt stays retrievable for
the rest of the session. -/
theorem window_append_only :
    (∀ (cfg : DMConfig) (g : ℚ × ℚ → Sample → ℚ) (s : DMState) (smp : Sample),
      (update_xyt cfg g s smp).recent_near_coords = s.recent_near_coords ++ [smp]) ∧
    (∀ (cfg : DMConfig) (g : ℚ × ℚ → Sample → ℚ) (samples : List Sample),
      (runSession cfg g samples).recent_near_coords = samples) ∧
    (∀ (cfg : DMConfig) (g : ℚ × ℚ → Sample → ℚ) (s : DMState) (smp : Sample) (i : ℕ),
      i < s.recent_near_coords.length →
      (update_xyt cfg g s smp).recent_near_coords[i]? = s.recent_near_coords[i]?) ∧
    (∀ (cfg : DMConfig) (g : ℚ × ℚ → Sample → ℚ) (samples : List Sample) (i : ℕ),
      (runSession cfg g samples).curve.curr_curve_start_index = some i →
      i < (runSession cfg g samples).recent_near_coords.length) := by
  refine ⟨update_xyt_recent, runSession_recent, ?_, ?_⟩
  · intro cfg g s smp i h
    rw [update_xyt_recent]
    exact List.getElem?_append_left h
  · intro cfg g samples i h
    exact foldl_start_index_lt cfg g samples initialState
      (by intro j hj; simp [initialState] at hj) i h

/-- C10 witness: a four-sample session that records curve start index 3; the
index is valid for the window, and an update leaves stored positions in
place. -/
theorem window_append_only_witness :
    (runSession ⟨1, 0, 0, 360⟩ (fun _ s => s.t)
      [⟨0, 0, 0⟩, ⟨0, 0, 10⟩, ⟨0, 0, 20⟩, ⟨0, 0, 30⟩]).curve.curr_curve_start_index =
      some 3 ∧
    3 < (runSession ⟨1, 0, 0, 360⟩ (fun _ s => s.t)
      [⟨0, 0, 0⟩, ⟨0, 0, 10⟩, ⟨0, 0, 20⟩, ⟨0, 0, 30⟩]).recent_near_coords.length ∧
    (update_xyt ⟨1, 0, 0, 360⟩ (fun _ s => s.t)
      ⟨[⟨0, 0, 0⟩], none, none, ⟨none, none, none, 0⟩⟩ ⟨1, 1, 1⟩).recent_near_coords[0]? =
      ([⟨0, 0, 0⟩] : List Sample)[0]? := by
  have h : (runSession ⟨1, 0, 0, 360⟩ (fun _ s => s.t)
      [⟨0, 0, 0⟩, ⟨0, 0, 10⟩, ⟨0, 0, 20⟩, ⟨0, 0, 30⟩]).curve.curr_curve_start_index =
      some 3 := by
    norm_num [runSession, update_xyt, remove_far_enough_recent_coords, findFarCoord,
      calc_curr_angle, check_if_new_curve, initialState, sqDistTo, normalizeAngle,
      pyMod_of_nonneg_lt]
    decide
  exact ⟨h, window_append_only.2.2.2 ⟨1, 0, 0, 360⟩ (fun _ s => s.t)
      [⟨0, 0, 0⟩, ⟨0, 0, 10⟩, ⟨0, 0, 20⟩, ⟨0, 0, 30⟩] 3 h,
    window_append_only.2.2.1 ⟨1, 0, 0, 360⟩ (fun _ s => s.t)
      ⟨[⟨0, 0, 0⟩], none, none, ⟨none, none, none, 0⟩⟩ ⟨1, 1, 1⟩ 0 (by simp)⟩

/-- C3: reset is idempotent at attribute level (assigning the same constants
twice equals assigning them once), but on a constructed-and-reset monitor
the curr_angle accessor raises AttributeError instead of returning the empty
value None, because reset assigns _last_angle rather than _curr_angle; the
remaining accessors do return the empty values. -/
theorem reset_idempotent_curr_angle_raises :
    (∀ m : PyDM, m.reset.reset = m.reset) ∧
    (∀ u d : ℚ,
      (DirectionMonitor_init u d).reset.curr_angle_prop =
        .error (.attributeError "_curr_angle") ∧
      (DirectionMonitor_init u d).reset.curr_curve_direction_prop = .ok none ∧
      (DirectionMonitor_init u d).reset.curr_curve_start_angle_prop = .ok none ∧
      (DirectionMonitor_init u d).reset.curr_curve_start_xyt_prop = .ok none ∧
      (DirectionMonitor_init u d).reset.n_curves_prop = .ok 0) := by
  constructor
  · intro m
    rfl
  · intro u d
    exact ⟨rfl, rfl, rfl, rfl, rfl⟩

/-- C4: on a newly constructed DirectionMonitor, update_xyt with valid
numeric arguments raises AttributeError (reading _recent_near_coords, which
__init__ never created) before touching any state; and even after reset()
the first update raises AttributeError reading _curr_angle — which reset
never assigns, it assigns _last_angle — after the new sample has already
been appended to the window. -/
theorem first_update_raises_attribute_error (u d x y t : ℚ)
    (g : ℚ × ℚ → Sample → ℚ) (ht : 0 ≤ t) :
    (DirectionMonitor_init u d).update_xyt g (.num x) (.num y) (.num t) =
      .error (.attributeError "_recent_near_coords", DirectionMonitor_init u d) ∧
    ((DirectionMonitor_init u d).reset).update_xyt g (.num x) (.num y) (.num t) =
      .error (.attributeError "_curr_angle",
        { (DirectionMonitor_init u d).reset with recent_near_coords := some [(⟨x, y, t⟩ : Sample)] }) := by
  have hnlt : ¬ t < 0 := not_lt.mpr ht
  constructor
  · simp [PyDM.update_xyt, PyDM.remove_far_enough, DirectionMonitor_init, hnlt]
  · simp [PyDM.update_xyt, PyDM.remove_far_enough, PyDM.reset, DirectionMonitor_init, hnlt]

/-- C4 witness: the fresh-monitor failure at the concrete call
update_xyt(0, 0, 0). -/
theorem first_update_raises_attribute_error_witness :
    (DirectionMonitor_init 1 0).update_xyt (fun _ _ => 0) (.num 0) (.num 0) (.num 0) =
      .error (.attributeError "_recent_near_coords", DirectionMonitor_init 1 0) ∧
    ((DirectionMonitor_init 1 0).reset).update_xyt (fun _ _ => 0) (.num 0) (.num 0) (.num 0) =
      .error (.attributeError "_curr_angle",
        { (DirectionMonitor_init 1 0).reset with recent_near_coords := some [(⟨0, 0, 0⟩ : Sample)] }) :=
  first_update_raises_attribute_error 1 0 0 0 0 (fun _ _ => 0) (by norm_num)

/-- C9: update_xyt validation is synchronous and atomic: a non-numeric
x_coord or a negative time raises ValueError from the validation helpers,
and the monitor state carried by the raised error is exactly the state
before the call — no attribute has been mutated. -/
theorem update_validation_atomic (g : ℚ × ℚ → Sample → ℚ) (m : PyDM) :
    m.update_xyt g (.str "a") (.num 0) (.num 0) =
      .error (.valueError "update_xyt called with a non-number x_coord", m) ∧
    m.update_xyt g (.num 0) (.num 0) (.num (-1)) =
      .error (.valueError "argument time of update_xyt has a negative value", m) := by
  constructor
  · rfl
  · norm_num [PyDM.update_xyt]

/-- C1 witness: with min_distance 0 every scanned sample qualifies, and a
three-sample session has a defined angle after the third update because the
second sample is a qualifying earlier sample. -/
theorem curr_angle_defined_iff_witness :
    (runSession ⟨1, 0, 0, 360⟩ (fun _ _ => 0)
      ([⟨0, 0, 0⟩, ⟨0, 0, 1⟩] ++ [⟨0, 0, 2⟩])).curr_angle ≠ none :=
  (curr_angle_defined_iff ⟨1, 0, 0, 360⟩ (fun _ _ => 0)
      [⟨0, 0, 0⟩, ⟨0, 0, 1⟩] ⟨0, 0, 2⟩).mpr
    ⟨⟨0, 0, 1⟩, by simp, by norm_num [sqDistTo]⟩

/-- C8 witness: the per-step bounds and the increment characterization at a
concrete step, and session monotonicity on a concrete extension. -/
theorem n_curves_monotone_increment_witness :
    ((⟨none, none, none, 5⟩ : CurveState).n_curves ≤
      (check_if_new_curve 360 none none 0 ⟨none, none, none, 5⟩).n_curves ∧
     (check_if_new_curve 360 none none 0 ⟨none, none, none, 5⟩).n_curves ≤
      (⟨none, none, none, 5⟩ : CurveState).n_curves + 1 ∧
     ((check_if_new_curve 360 none none 0 ⟨none, none, none, 5⟩).n_curves =
        (⟨none, none, none, 5⟩ : CurveState).n_curves + 1 ↔
       ∃ a b, (none : Option ℚ) = some a ∧ (none : Option ℚ) = some b ∧
         pyMod (a - b) 360 ≠ 0 ∧
         some (if pyMod (a - b) 360 ≤ 360 / 2 then (1 : ℤ) else -1) ≠
           (⟨none, none, none, 5⟩ : CurveState).curr_curve_direction)) ∧
    (runSession ⟨1, 0, 0, 360⟩ (fun _ _ => 0) []).curve.n_curves ≤
      (runSession ⟨1, 0, 0, 360⟩ (fun _ _ => 0) ([] ++ [⟨0, 0, 0⟩])).curve.n_curves :=
  ⟨n_curves_monotone_increment.1 360 none none 0 ⟨none, none, none, 5⟩,
   n_curves_monotone_increment.2 ⟨1, 0, 0, 360⟩ (fun _ _ => 0) [] [⟨0, 0, 0⟩]⟩
